import Mathlib

/-!
Verification development for the Warbler microblogging application
(`flask-warbler`).

The data model (users, messages, follows, likes), the model-layer helpers
(`User.signup`, `User.authenticate`, `is_following`, `is_followed_by`) and the
route handlers are embedded as pure Lean functions over an explicit database
state.  `models.py` and `app.py` are not part of the provided sources (only
`forms.py` and the four unittest files are), so those parts are modelled from
the specification text, with the unit tests in `src/` pinning the observable
behaviour; each such definition carries a `Modelled from the spec:` note.
`forms.py` is embedded directly from its source.
-/

namespace Warbler

/-- Modelled from the spec: the bcrypt password hashing delegated to a
standard library (`models.py` is not in `src/`).  Hashing is modelled as an
injective tagging function; `check_password_hash h p` succeeds exactly when
`h` is the stored hash of `p`. -/
def hashpw (pw : String) : String := "$2b$12$" ++ pw

/-- Modelled from the spec: bcrypt's hash check. -/
def check_password_hash (hashed pw : String) : Bool := hashed == hashpw pw

/-- Modelled from the spec: a committed `User` row — "User: id, username
(unique), email (unique), hashed password, image URLs, bio, location."
Username and email are `Option` so that a pending row may carry a null value,
which the commit-time constraint check rejects. -/
structure UserRow where
  id : Nat
  username : Option String
  email : Option String
  password : String
  bio : String
deriving Repr, DecidableEq

/-- Modelled from the spec: "Message: id, text, timestamp, owning user
(foreign key)."  `text` is `Option` because it is a non-nullable column whose
nullness is only detected at commit time. -/
structure MessageRow where
  id : Nat
  text : Option String
  user_id : Nat
deriving Repr, DecidableEq

/-- Modelled from the spec: "Follow (join table): follower id, followed id —
many-to-many self-relationship on User." -/
structure FollowRow where
  user_following_id : Nat
  user_being_followed_id : Nat
deriving Repr, DecidableEq

/-- Modelled from the spec: "Like (join table): user id, message id —
many-to-many between User and Message." -/
structure LikeRow where
  user_id : Nat
  message_id : Nat
deriving Repr, DecidableEq

/-- The committed relational database: the four tables. -/
structure DB where
  users : List UserRow
  messages : List MessageRow
  follows : List FollowRow
  likes : List LikeRow
deriving Repr, DecidableEq

/-- The error raised by the database layer on a constraint violation
(sqlalchemy's `IntegrityError`). -/
inductive DBError where
  | IntegrityError
deriving Repr, DecidableEq

/-- `User.query.get(uid)`. -/
def findUser (db : DB) (uid : Nat) : Option UserRow :=
  db.users.find? (fun u => u.id == uid)

/-- `Message.query.get(mid)`. -/
def findMessage (db : DB) (mid : Nat) : Option MessageRow :=
  db.messages.find? (fun m => m.id == mid)

/-- Whether a committed user already holds this username. -/
def usernameTaken (db : DB) (un : String) : Bool :=
  db.users.any (fun u => u.username == some un)

/-- Whether a committed user already holds this email. -/
def emailTaken (db : DB) (em : String) : Bool :=
  db.users.any (fun u => u.email == some em)

/-- Whether a committed user other than `uid` holds this username. -/
def usernameTakenByOther (db : DB) (uid : Nat) (un : String) : Bool :=
  db.users.any (fun u => u.id != uid && u.username == some un)

/-- Whether a committed user other than `uid` holds this email. -/
def emailTakenByOther (db : DB) (uid : Nat) (em : String) : Bool :=
  db.users.any (fun u => u.id != uid && u.email == some em)

/-- Modelled from the spec: the database constraints on the `users` table —
primary key on `id`, `NOT NULL` and `UNIQUE` on `username` and `email`. -/
def userConstraintsOk (db : DB) (u : UserRow) : Bool :=
  u.username.isSome && u.email.isSome
    && !(db.users.any (fun v => v.username == u.username))
    && !(db.users.any (fun v => v.email == u.email))
    && !(db.users.any (fun v => v.id == u.id))

/-- Modelled from the spec: `db.session.commit()` of a session holding one
pending `User` insert.  The relational database checks the constraints and
either appends the row or raises `IntegrityError`. -/
def commitUserInsert (db : DB) (u : UserRow) : Except DBError DB :=
  if userConstraintsOk db u then
    .ok { db with users := db.users ++ [u] }
  else
    .error .IntegrityError

/-- Modelled from the spec: the `messages` table constraints — primary key on
`id`, `NOT NULL` on `text`, foreign key `user_id` into `users`. -/
def messageConstraintsOk (db : DB) (m : MessageRow) : Bool :=
  m.text.isSome
    && db.users.any (fun u => u.id == m.user_id)
    && !(db.messages.any (fun x => x.id == m.id))

/-- Modelled from the spec: `db.session.commit()` of a session holding one
pending `Message` insert. -/
def commitMessageInsert (db : DB) (m : MessageRow) : Except DBError DB :=
  if messageConstraintsOk db m then
    .ok { db with messages := db.messages ++ [m] }
  else
    .error .IntegrityError

/-- A fresh primary key for a new user (serial column). -/
def nextUserId (db : DB) : Nat :=
  db.users.foldr (fun u acc => max (u.id + 1) acc) 0

/-- Modelled from the spec: `User.signup(username, email, password, image_url)`
builds a pending `User` row with the bcrypt-hashed password; it does not
commit. -/
def signupRow (db : DB) (un em : Option String) (pw : String) : UserRow :=
  { id := nextUserId db, username := un, email := em,
    password := hashpw pw, bio := "" }

/-- Modelled from the spec: `User.authenticate(username, password)` — "Users
sign up, authenticate, …".  Looks the username up and checks the bcrypt hash;
`none` models the Python return value `False`. -/
def User.authenticate (db : DB) (un pw : String) : Option UserRow :=
  match db.users.find? (fun u => u.username == some un) with
  | some u => if check_password_hash u.password pw then some u else none
  | none => none

/-- Modelled from the spec: `u.is_following(other)` over the follow join
table. -/
def is_following (db : DB) (a b : Nat) : Bool :=
  db.follows.any (fun f => f.user_following_id == a && f.user_being_followed_id == b)

/-- Modelled from the spec: `u.is_followed_by(other)` over the follow join
table. -/
def is_followed_by (db : DB) (a b : Nat) : Bool :=
  db.follows.any (fun f => f.user_following_id == b && f.user_being_followed_id == a)

/-- `a.following.append(b)`: insert the follow row (follower `a`,
followed `b`). -/
def appendFollow (db : DB) (a b : Nat) : DB :=
  { db with follows := db.follows ++ [⟨a, b⟩] }

/-- Membership of message `mid` in `u.liked_messages`. -/
def likes_message (db : DB) (uid mid : Nat) : Bool :=
  db.likes.any (fun l => l.user_id == uid && l.message_id == mid)

/-- The form data posted to `/users/profile`. -/
structure ProfileForm where
  username : String
  email : String
  bio : String
  password : String
deriving Repr, DecidableEq

/-- The form data posted to `/signup`. -/
structure SignupFormData where
  username : String
  email : String
  password : String
deriving Repr, DecidableEq

/-- The routes of the application that the claims mention. -/
inductive Route where
  | listUsers
  | showUser (id : Nat)
  | showFollowing (id : Nat)
  | showFollowers (id : Nat)
  | showLikes (id : Nat)
  | profileGet
  | profilePost (form : ProfileForm)
  | followUser (id : Nat)
  | stopFollowing (id : Nat)
  | deleteUser
  | logout
  | likeMessage (id : Nat)
  | unlikeMessage (id : Nat)
  | deleteMessage (id : Nat)
  | signupPost (form : SignupFormData)
deriving Repr, DecidableEq

/-- The observable outcome of a request: the committed database afterwards,
the session (`CURR_USER_KEY`) afterwards, whether the answer was a redirect,
and the text fragments (flashed messages and rendered markers) that the
finally delivered page contains. -/
structure Response where
  db : DB
  session : Option Nat
  redirected : Bool
  body : List String
deriving Repr, DecidableEq

/-- Modelled from the spec: the shared logged-out branch of every gated route
— `flash("Access unauthorized.", "danger"); return redirect("/")`.  The
database is untouched. -/
def unauthorized (db : DB) (s : Option Nat) : Response :=
  { db := db, session := s, redirected := true, body := ["Access unauthorized."] }

/-- A `get_or_404` miss. -/
def notFound (db : DB) (s : Option Nat) : Response :=
  { db := db, session := s, redirected := false, body := ["404"] }

/-- Rendering a user detail page. -/
def renderUserPage (db : DB) (s : Option Nat) (uid : Nat) : Response :=
  match findUser db uid with
  | none => notFound db s
  | some u =>
      { db := db, session := s, redirected := false,
        body := ["@" ++ u.username.getD ""] }

/-- Modelled from the spec: the `POST /signup` handler (`app.py` is not in
`src/`).  Reusing an existing username or email re-renders the form with
"Username already exists." or "Email already exists." and creates no user;
otherwise the new user is committed and logged in. -/
def handleSignup (db : DB) (s : Option Nat) (f : SignupFormData) : Response :=
  if usernameTaken db f.username then
    { db := db, session := s, redirected := false, body := ["Username already exists."] }
  else if emailTaken db f.email then
    { db := db, session := s, redirected := false, body := ["Email already exists."] }
  else
    match commitUserInsert db (signupRow db (some f.username) (some f.email) f.password) with
    | .ok db2 =>
        { db := db2, session := some (nextUserId db), redirected := true,
          body := ["@" ++ f.username] }
    | .error _ =>
        { db := db, session := s, redirected := false, body := ["IntegrityError"] }

/-- Modelled from the spec: the `POST /users/profile` handler.  The submitted
change is guarded by the current password; a wrong password re-renders with
"Wrong password", a username held by another user re-renders with
"Username already exists.", and the unique-email constraint is enforced by
the commit; only when all checks pass are username, email and bio applied. -/
def handleProfilePost (db : DB) (uid : Nat) (f : ProfileForm) : Response :=
  match findUser db uid with
  | none => unauthorized db (some uid)
  | some u =>
      if !(check_password_hash u.password f.password) then
        { db := db, session := some uid, redirected := false, body := ["Wrong password"] }
      else if usernameTakenByOther db uid f.username then
        { db := db, session := some uid, redirected := false,
          body := ["Username already exists."] }
      else if emailTakenByOther db uid f.email then
        { db := db, session := some uid, redirected := false, body := ["IntegrityError"] }
      else
        { db := { db with users := db.users.map (fun v =>
            if v.id == uid then
              { v with username := some f.username, email := some f.email, bio := f.bio }
            else v) },
          session := some uid, redirected := true,
          body := ["@" ++ f.username, f.bio] }

/-- Modelled from the spec: `POST /users/follow/<id>` — insert the follow
row. -/
def handleFollow (db : DB) (uid fid : Nat) : Response :=
  match findUser db fid with
  | none => notFound db (some uid)
  | some _ =>
      { db := appendFollow db uid fid, session := some uid, redirected := true, body := [] }

/-- Modelled from the spec: `POST /users/stop-following/<id>` — delete the
follow row from the join table. -/
def handleStopFollowing (db : DB) (uid fid : Nat) : Response :=
  { db := { db with follows := db.follows.filter (fun f =>
      !(f.user_following_id == uid && f.user_being_followed_id == fid)) },
    session := some uid, redirected := true, body := [] }

/-- Modelled from the spec: `POST /users/delete` — "destroyed via
delete-account (cascades to owned messages)"; the session is logged out. -/
def handleDeleteUser (db : DB) (uid : Nat) : Response :=
  { db := { users := db.users.filter (fun u => u.id != uid),
            messages := db.messages.filter (fun m => m.user_id != uid),
            follows := db.follows.filter (fun f =>
              f.user_following_id != uid && f.user_being_followed_id != uid),
            likes := db.likes.filter (fun l =>
              l.user_id != uid
                && !(db.messages.any (fun m => m.id == l.message_id && m.user_id == uid))) },
    session := none, redirected := true, body := ["User has been deleted, goodbye!"] }

/-- Modelled from the spec: `POST /logout`. -/
def handleLogout (db : DB) (uid : Nat) : Response :=
  match findUser db uid with
  | none => unauthorized db (some uid)
  | some u =>
      { db := db, session := none, redirected := true,
        body := [u.username.getD "" ++ " successfully logged out!"] }

/-- Modelled from the spec: `POST /messages/<id>/like` — insert the like row
into the join table (`liked_messages` is a set-valued collection, so liking
an already-liked message is a no-op). -/
def handleLike (db : DB) (uid mid : Nat) : Response :=
  match findMessage db mid with
  | none => notFound db (some uid)
  | some _ =>
      if likes_message db uid mid then
        { db := db, session := some uid, redirected := true, body := [] }
      else
        { db := { db with likes := db.likes ++ [⟨uid, mid⟩] },
          session := some uid, redirected := true, body := [] }

/-- Modelled from the spec: `POST /messages/<id>/unlike` — "unfollow/unlike
(row deletion from join table)". -/
def handleUnlike (db : DB) (uid mid : Nat) : Response :=
  match findMessage db mid with
  | none => notFound db (some uid)
  | some _ =>
      { db := { db with likes := db.likes.filter (fun l =>
          !(l.user_id == uid && l.message_id == mid)) },
        session := some uid, redirected := true, body := [] }

/-- Modelled from the spec: `POST /messages/<id>/delete` — only the owning
user may delete a message; anyone else is answered with
"Access unauthorized." and the row is kept. -/
def handleDeleteMessage (db : DB) (uid mid : Nat) : Response :=
  match findMessage db mid with
  | none => notFound db (some uid)
  | some m =>
      if m.user_id != uid then
        unauthorized db (some uid)
      else
        { db := { db with
                  messages := db.messages.filter (fun x => x.id != mid)
                  likes := db.likes.filter (fun l => l.message_id != mid) }
          session := some uid
          redirected := true
          body := [] }

/-- Modelled from the spec: the request dispatcher of `app.py`.  Every route
other than `/signup` is "gated by an `if current_user` session check": with
no logged-in user in the session it mutates nothing and redirects with
"Access unauthorized.". -/
def handle (db : DB) (sess : Option Nat) (r : Route) : Response :=
  match r with
  | .signupPost f => handleSignup db sess f
  | _ =>
    match sess with
    | none => unauthorized db none
    | some uid =>
      match r with
      | .listUsers =>
          { db := db, session := some uid, redirected := false,
            body := db.users.map (fun u => "@" ++ u.username.getD "") }
      | .showUser id => renderUserPage db (some uid) id
      | .showFollowing id => renderUserPage db (some uid) id
      | .showFollowers id => renderUserPage db (some uid) id
      | .showLikes id => renderUserPage db (some uid) id
      | .profileGet =>
          { db := db, session := some uid, redirected := false,
            body := ["Edit Your Profile."] }
      | .profilePost f => handleProfilePost db uid f
      | .followUser id => handleFollow db uid id
      | .stopFollowing id => handleStopFollowing db uid id
      | .deleteUser => handleDeleteUser db uid
      | .logout => handleLogout db uid
      | .likeMessage id => handleLike db uid id
      | .unlikeMessage id => handleUnlike db uid id
      | .deleteMessage id => handleDeleteMessage db uid id
      | .signupPost f => handleSignup db (some uid) f

/-- The ten login-protected routes listed by the claim on route gating. -/
def protectedRoute : Route → Bool
  | .listUsers => true
  | .showUser _ => true
  | .showFollowing _ => true
  | .showFollowers _ => true
  | .showLikes _ => true
  | .profileGet => true
  | .followUser _ => true
  | .stopFollowing _ => true
  | .deleteUser => true
  | .logout => true
  | _ => false

/-! ### Form validation, embedded from `src/forms.py` -/

/-- wtforms `InputRequired()`: the submitted raw data must be non-empty. -/
def inputRequired (s : String) : Bool := !s.isEmpty

/-- wtforms `Length(max=hi)` (no minimum). -/
def lengthMax (hi : Nat) (s : String) : Bool := s.length ≤ hi

/-- wtforms `Length(min=lo, max=hi)`. -/
def lengthBetween (lo hi : Nat) (s : String) : Bool :=
  lo ≤ s.length && s.length ≤ hi

/-- wtforms `Optional()`: an empty field skips the remaining validators of
its chain and is accepted. -/
def optionalField (chain : String → Bool) (s : String) : Bool :=
  s.isEmpty || chain s

/-- The data submitted to `UserAddForm`. -/
structure UserAddFormData where
  username : String
  email : String
  password : String
  image_url : String
deriving Repr, DecidableEq

/-- The data submitted to `LoginForm`. -/
structure LoginFormData where
  username : String
  password : String
deriving Repr, DecidableEq

/-- `UserAddForm` from `forms.py`: username `[InputRequired(), Length(max=30)]`,
email `[InputRequired(), Email(), Length(max=50)]`, password
`[InputRequired(), Length(min=6, max=50)]`, image_url
`[Optional(), URL(), Length(max=255)]`.  The `Email()` and `URL()` library
validators are abstracted as the parameters `isEmail` and `isURL`. -/
def validateUserAddForm (isEmail isURL : String → Bool) (f : UserAddFormData) : Bool :=
  (inputRequired f.username && lengthMax 30 f.username)
    && (inputRequired f.email && isEmail f.email && lengthMax 50 f.email)
    && (inputRequired f.password && lengthBetween 6 50 f.password)
    && optionalField (fun s => isURL s && lengthMax 255 s) f.image_url

/-- `LoginForm` from `forms.py`: username `[InputRequired(), Length(max=30)]`,
password `[InputRequired(), Length(min=6, max=50)]`. -/
def validateLoginForm (f : LoginFormData) : Bool :=
  (inputRequired f.username && lengthMax 30 f.username)
    && (inputRequired f.password && lengthBetween 6 50 f.password)

/-! ### The uniqueness invariant on committed users -/

/-- Two committed user rows are compatible: distinct primary keys, distinct
usernames, distinct emails. -/
def userDistinct (a b : UserRow) : Prop :=
  a.id ≠ b.id ∧ a.username ≠ b.username ∧ a.email ≠ b.email

instance (a b : UserRow) : Decidable (userDistinct a b) := by
  unfold userDistinct; infer_instance

/-- The invariant of the `users` table: pairwise distinct ids, usernames and
emails, and no null username or email. -/
def usersInvariant (l : List UserRow) : Prop :=
  l.Pairwise userDistinct ∧ ∀ u ∈ l, u.username.isSome = true ∧ u.email.isSome = true

instance (l : List UserRow) : Decidable (usersInvariant l) := by
  unfold usersInvariant; infer_instance

/-- The database-wide invariant: "User: id, username (unique), email
(unique)". -/
def dbInvariant (db : DB) : Prop := usersInvariant db.users

instance (db : DB) : Decidable (dbInvariant db) := by
  unfold dbInvariant; infer_instance

/-! ### Sample data, mirroring the fixtures of the unit tests -/

/-- Test fixture `u1`. -/
def user1 : UserRow :=
  { id := 1, username := some "u1", email := some "u1@email.com",
    password := hashpw "password", bio := "" }

/-- Test fixture `u2`. -/
def user2 : UserRow :=
  { id := 2, username := some "u2", email := some "u2@email.com",
    password := hashpw "password", bio := "" }

/-- Test fixture `m1`, owned by `u1`. -/
def msg1 : MessageRow := { id := 1, text := some "m1-text", user_id := 1 }

/-- Test fixture `m2`, owned by `u2`. -/
def msg2 : MessageRow := { id := 2, text := some "m2-text", user_id := 2 }

/-- The database state the unit tests set up. -/
def db0 : DB :=
  { users := [user1, user2], messages := [msg1, msg2], follows := [], likes := [] }

/-! ### Helper lemmas -/

lemma dbInvariant_of_users_eq {db1 db2 : DB} (h : db2.users = db1.users)
    (hinv : dbInvariant db1) : dbInvariant db2 := by
  unfold dbInvariant at *
  rw [h]
  exact hinv

lemma usersInvariant_filter {l : List UserRow} (p : UserRow → Bool)
    (hinv : usersInvariant l) : usersInvariant (l.filter p) := by
  obtain ⟨hp, hs⟩ := hinv
  exact ⟨hp.sublist (List.filter_sublist l),
    fun u hu => hs u (List.mem_filter.mp hu).1⟩

lemma likes_filter_out (l : List LikeRow) (uid mid : Nat) :
    (l.filter (fun x => !(x.user_id == uid && x.message_id == mid))).any
      (fun x => x.user_id == uid && x.message_id == mid) = false := by
  rw [List.any_eq_false]
  intro x hx
  have := (List.mem_filter.mp hx).2
  simp at this ⊢
  tauto

lemma isEmpty_eq_false_iff (s : String) : s.isEmpty = false ↔ s ≠ "" := by
  constructor
  · intro h heq
    subst heq
    exact absurd (h.symm.trans ((String.isEmpty_iff "").mpr rfl)) (by decide)
  · intro h
    cases hb : s.isEmpty
    · rfl
    · exact absurd ((String.isEmpty_iff s).mp hb) h

/-! ### Claim theorems -/

/-- C1: for every login-protected route (GET /users, GET /users/id,
GET following, GET followers, GET likes, GET /users/profile, POST follow,
POST stop-following, POST /users/delete, POST /logout), a request whose
session contains no logged-in user never mutates the database and is
answered with a redirect whose followed page contains
"Access unauthorized.". -/
theorem logged_out_requests_safe (db : DB) (r : Route)
    (h : protectedRoute r = true) :
    (handle db none r).db = db ∧ (handle db none r).redirected = true ∧
      "Access unauthorized." ∈ (handle db none r).body := by
  cases r <;> simp_all [handle, unauthorized, protectedRoute]

/-- Witness for C1: the logged-out delete-account request on the test
fixture database. -/
theorem logged_out_requests_safe_witness :
    (handle db0 none .deleteUser).db = db0 ∧
      (handle db0 none .deleteUser).redirected = true ∧
      "Access unauthorized." ∈ (handle db0 none .deleteUser).body :=
  logged_out_requests_safe db0 .deleteUser (by decide)

/-- C5: the follow relation is directed, `is_following` and `is_followed_by`
are converses, and appending `b` to `a.following` makes `a.is_following(b)`
true while leaving `b.is_following(a)` as it was for distinct users. -/
theorem follow_relation_directed (db : DB) (a b : Nat) (h : a ≠ b) :
    (is_following db a b = is_followed_by db b a) ∧
      is_following (appendFollow db a b) a b = true ∧
      is_following (appendFollow db a b) b a = is_following db b a := by
  refine ⟨rfl, ?_, ?_⟩
  · simp [is_following, appendFollow]
  · simp [is_following, appendFollow, h]

/-- Witness for C5: following on the test fixture users. -/
theorem follow_relation_directed_witness :
    (is_following db0 1 2 = is_followed_by db0 2 1) ∧
      is_following (appendFollow db0 1 2) 1 2 = true ∧
      is_following (appendFollow db0 1 2) 2 1 = is_following db0 2 1 :=
  follow_relation_directed db0 1 2 (by decide)

/-- C4: after a logged-in user posts to /users/delete, the user row is gone
(querying the deleted id returns none), every message owned by the user is
deleted with it, and the session is logged out. -/
theorem delete_user_cascades (db : DB) (uid : Nat) :
    findUser (handle db (some uid) .deleteUser).db uid = none ∧
      (∀ m ∈ (handle db (some uid) .deleteUser).db.messages, m.user_id ≠ uid) ∧
      (handle db (some uid) .deleteUser).session = none := by
  refine ⟨?_, ?_, rfl⟩
  · show (db.users.filter (fun u => u.id != uid)).find? (fun u => u.id == uid) = none
    rw [List.find?_eq_none]
    intro u hu
    have := (List.mem_filter.mp hu).2
    simpa using this
  · intro m hm
    have := (List.mem_filter.mp hm).2
    simpa using this

/-- C10: `UserAddForm` validates an input iff username is present with at
most 30 characters, email is present, email-formatted and at most 50
characters, password is present with length between 6 and 50, and image_url
is empty or a well-formed URL of at most 255 characters; `LoginForm` applies
the same username and password bounds; a password shorter than 6 characters
never passes either form. -/
theorem forms_validation_spec (isEmail isURL : String → Bool)
    (f : UserAddFormData) (g : LoginFormData) :
    (validateUserAddForm isEmail isURL f = true ↔
      ((f.username ≠ "" ∧ f.username.length ≤ 30) ∧
        (f.email ≠ "" ∧ isEmail f.email = true ∧ f.email.length ≤ 50) ∧
        (f.password ≠ "" ∧ 6 ≤ f.password.length ∧ f.password.length ≤ 50) ∧
        (f.image_url = "" ∨ (isURL f.image_url = true ∧ f.image_url.length ≤ 255)))) ∧
    (validateLoginForm g = true ↔
      ((g.username ≠ "" ∧ g.username.length ≤ 30) ∧
        (g.password ≠ "" ∧ 6 ≤ g.password.length ∧ g.password.length ≤ 50))) ∧
    (f.password.length < 6 → validateUserAddForm isEmail isURL f = false) ∧
    (g.password.length < 6 → validateLoginForm g = false) := by
  refine ⟨?_, ?_, ?_, ?_⟩
  · simp [validateUserAddForm, inputRequired, lengthMax, lengthBetween,
      optionalField, String.isEmpty_iff, isEmpty_eq_false_iff, and_assoc]
  · simp [validateLoginForm, inputRequired, lengthMax, lengthBetween,
      String.isEmpty_iff, isEmpty_eq_false_iff, and_assoc]
  · intro hlen
    simp [validateUserAddForm, inputRequired, lengthBetween,
      isEmpty_eq_false_iff]
    intro _ _ _ _ _ _ h6
    omega
  · intro hlen
    simp [validateLoginForm, inputRequired, lengthBetween, isEmpty_eq_false_iff]
    intro _ _ _ h6
    omega

/-- Witness for C10: a five-character password fails both forms. -/
theorem forms_validation_spec_witness :
    validateUserAddForm (fun _ => true) (fun _ => true)
        { username := "u1", email := "a@b.c", password := "12345", image_url := "" } = false ∧
      validateLoginForm { username := "u1", password := "12345" } = false :=
  ⟨(forms_validation_spec (fun _ => true) (fun _ => true)
      { username := "u1", email := "a@b.c", password := "12345", image_url := "" }
      { username := "u1", password := "12345" }).2.2.1 (by decide),
    (forms_validation_spec (fun _ => true) (fun _ => true)
      { username := "u1", email := "a@b.c", password := "12345", image_url := "" }
      { username := "u1", password := "12345" }).2.2.2 (by decide)⟩

lemma pairwise_username_inj {l : List UserRow}
    (hp : l.Pairwise userDistinct) :
    ∀ u ∈ l, ∀ v ∈ l, u.username = v.username → u = v := by
  induction l with
  | nil => simp
  | cons a t ih =>
    rcases hp with _ | ⟨ha, hp'⟩
    intro u hu v hv heq
    rcases List.mem_cons.mp hu with hu1 | hu2
    · subst hu1
      rcases List.mem_cons.mp hv with hv1 | hv2
      · subst hv1
        rfl
      · exact absurd heq (ha v hv2).2.1
    · rcases List.mem_cons.mp hv with hv1 | hv2
      · subst hv1
        exact absurd heq.symm (ha u hu2).2.1
      · exact ih hp' u hu2 v hv2 heq

/-- C2: `User.authenticate(username, password)` returns the unique user whose
username matches and whose stored hashed password matches the given
password; with no matching user, or an existing username paired with a
non-matching password, it returns False (modelled as `none`). -/
theorem authenticate_spec (db : DB) (un pw : String) (hinv : dbInvariant db) :
    (∀ u, User.authenticate db un pw = some u ↔
      u ∈ db.users ∧ u.username = some un ∧
        check_password_hash u.password pw = true) ∧
    ((¬∃ u ∈ db.users, u.username = some un ∧
        check_password_hash u.password pw = true) →
      User.authenticate db un pw = none) := by
  have authNone : db.users.find? (fun v => v.username == some un) = none →
      User.authenticate db un pw = none := by
    intro h
    unfold User.authenticate
    rw [h]
  have authFound : ∀ w, db.users.find? (fun v => v.username == some un) = some w →
      User.authenticate db un pw =
        if check_password_hash w.password pw then some w else none := by
    intro w h
    unfold User.authenticate
    rw [h]
  have key : ∀ u, User.authenticate db un pw = some u ↔
      u ∈ db.users ∧ u.username = some un ∧
        check_password_hash u.password pw = true := by
    intro u
    constructor
    · intro h
      cases hfind : db.users.find? (fun v => v.username == some un) with
      | none =>
        rw [authNone hfind] at h
        exact Option.noConfusion h
      | some w =>
        rw [authFound w hfind] at h
        by_cases hpw : check_password_hash w.password pw = true
        · rw [if_pos hpw] at h
          cases h
          exact ⟨List.mem_of_find?_eq_some hfind,
            by simpa using List.find?_some hfind, hpw⟩
        · rw [if_neg hpw] at h
          exact Option.noConfusion h
    · rintro ⟨hmem, hun, hpw⟩
      cases hfind : db.users.find? (fun v => v.username == some un) with
      | none =>
        have := List.find?_eq_none.mp hfind u hmem
        simp [hun] at this
      | some w =>
        have hwmem := List.mem_of_find?_eq_some hfind
        have hwun : w.username = some un := by
          simpa using List.find?_some hfind
        have hwu : w = u :=
          pairwise_username_inj hinv.1 w hwmem u hmem (hwun.trans hun.symm)
        subst hwu
        rw [authFound w hfind, if_pos hpw]
  refine ⟨key, ?_⟩
  intro hno
  cases hauth : User.authenticate db un pw with
  | none => rfl
  | some u =>
    obtain ⟨hmem, hun, hpw⟩ := (key u).mp hauth
    exact absurd ⟨u, hmem, hun, hpw⟩ hno

/-- Witness for C2: authenticating `u1` with the right password on the test
fixture database returns exactly the `u1` row. -/
theorem authenticate_spec_witness :
    User.authenticate db0 "u1" "password" = some user1 ↔
      user1 ∈ db0.users ∧ user1.username = some "u1" ∧
        check_password_hash user1.password "password" = true :=
  (authenticate_spec db0 "u1" "password" (by decide)).1 user1

/-- C6: like followed by unlike is a round trip: after POST
/messages/m/like the message is in the user's liked messages, and after a
subsequent POST /messages/m/unlike it is not (the like row is deleted from
the join table). -/
theorem like_unlike_roundtrip (db : DB) (uid mid : Nat) (m : MessageRow)
    (hm : findMessage db mid = some m) :
    likes_message (handle db (some uid) (.likeMessage mid)).db uid mid = true ∧
      likes_message (handle (handle db (some uid) (.likeMessage mid)).db
        (some uid) (.unlikeMessage mid)).db uid mid = false := by
  show likes_message (handleLike db uid mid).db uid mid = true ∧
    likes_message (handleUnlike (handleLike db uid mid).db uid mid).db uid mid = false
  by_cases hliked : likes_message db uid mid = true
  · have h1 : handleLike db uid mid =
        { db := db, session := some uid, redirected := true, body := [] } := by
      unfold handleLike
      rw [hm]
      simp [hliked]
    rw [h1]
    refine ⟨hliked, ?_⟩
    have h2 : handleUnlike db uid mid =
        { db := { db with likes := db.likes.filter (fun l =>
            !(l.user_id == uid && l.message_id == mid)) }
          session := some uid
          redirected := true
          body := [] } := by
      unfold handleUnlike
      rw [hm]
    rw [h2]
    exact likes_filter_out db.likes uid mid
  · have h1 : handleLike db uid mid =
        { db := { db with likes := db.likes ++ [{ user_id := uid, message_id := mid }] }
          session := some uid
          redirected := true
          body := [] } := by
      unfold handleLike
      rw [hm]
      simp [hliked]
    rw [h1]
    constructor
    · simp [likes_message, List.any_append]
    · have h2 : handleUnlike
          { db with likes := db.likes ++ [{ user_id := uid, message_id := mid }] } uid mid =
          { db := { db with likes :=
              ((db.likes ++ ([{ user_id := uid, message_id := mid }] : List LikeRow)).filter
                (fun l => !(l.user_id == uid && l.message_id == mid))) }
            session := some uid
            redirected := true
            body := [] } := by
        unfold handleUnlike
        rw [show findMessage
              { db with likes := db.likes ++ [{ user_id := uid, message_id := mid }] } mid
              = some m from hm]
      rw [h2]
      exact likes_filter_out _ uid mid

/-- Witness for C6: liking then unliking `m2` as `u1` on the test fixture
database. -/
theorem like_unlike_roundtrip_witness :
    likes_message (handle db0 (some 1) (.likeMessage 2)).db 1 2 = true ∧
      likes_message (handle (handle db0 (some 1) (.likeMessage 2)).db
        (some 1) (.unlikeMessage 2)).db 1 2 = false :=
  like_unlike_roundtrip db0 1 2 msg2 (by decide)

/-- C8: message deletion is owner-only: the logged-in user's POST
/messages/id/delete removes the message iff the message's owner is the
logged-in user; for another user's message the answer contains
"Access unauthorized." and the message still exists. -/
theorem delete_message_owner_only (db : DB) (uid mid : Nat) (m : MessageRow)
    (hm : findMessage db mid = some m) :
    (findMessage (handle db (some uid) (.deleteMessage mid)).db mid = none ↔
      m.user_id = uid) ∧
    (m.user_id ≠ uid →
      "Access unauthorized." ∈ (handle db (some uid) (.deleteMessage mid)).body ∧
      (handle db (some uid) (.deleteMessage mid)).db = db) := by
  show (findMessage (handleDeleteMessage db uid mid).db mid = none ↔
      m.user_id = uid) ∧
    (m.user_id ≠ uid →
      "Access unauthorized." ∈ (handleDeleteMessage db uid mid).body ∧
      (handleDeleteMessage db uid mid).db = db)
  by_cases h : m.user_id = uid
  · have h1 : handleDeleteMessage db uid mid =
        { db := { db with
                  messages := db.messages.filter (fun x => x.id != mid)
                  likes := db.likes.filter (fun l => l.message_id != mid) }
          session := some uid
          redirected := true
          body := [] } := by
      unfold handleDeleteMessage
      rw [hm]
      simp [h]
    rw [h1]
    refine ⟨⟨fun _ => h, fun _ => ?_⟩, fun hc => absurd h hc⟩
    show (db.messages.filter (fun x => x.id != mid)).find?
      (fun x => x.id == mid) = none
    rw [List.find?_eq_none]
    intro x hx
    have := (List.mem_filter.mp hx).2
    simpa using this
  · have h1 : handleDeleteMessage db uid mid = unauthorized db (some uid) := by
      unfold handleDeleteMessage
      rw [hm]
      simp [h]
    rw [h1]
    refine ⟨?_, fun _ => ⟨by simp [unauthorized], rfl⟩⟩
    show findMessage db mid = none ↔ m.user_id = uid
    rw [hm]
    simp [h]

/-- Witness for C8: `u1` attempting to delete `u2`'s message `m2` on the
test fixture database. -/
theorem delete_message_owner_only_witness :
    (findMessage (handle db0 (some 1) (.deleteMessage 2)).db 2 = none ↔
      msg2.user_id = 1) ∧
    (msg2.user_id ≠ 1 →
      "Access unauthorized." ∈ (handle db0 (some 1) (.deleteMessage 2)).body ∧
      (handle db0 (some 1) (.deleteMessage 2)).db = db0) :=
  delete_message_owner_only db0 1 2 msg2 (by decide)

/-- C9: committing a session inserting a `Message` with null text raises
`IntegrityError` and stores nothing; a message with non-null text and a
valid owning user id commits successfully with its text stored unchanged. -/
theorem message_commit_spec (db : DB) (m : MessageRow) :
    (m.text = none →
      commitMessageInsert db m = .error .IntegrityError) ∧
    (∀ t, m.text = some t →
      db.users.any (fun u => u.id == m.user_id) = true →
      db.messages.any (fun x => x.id == m.id) = false →
      commitMessageInsert db m = .ok { db with messages := db.messages ++ [m] } ∧
        m ∈ (db.messages ++ [m]) ∧ m.text = some t) := by
  constructor
  · intro hnull
    unfold commitMessageInsert messageConstraintsOk
    rw [if_neg (by simp [hnull])]
  · intro t ht hfk hfresh
    refine ⟨?_, by simp, ht⟩
    unfold commitMessageInsert messageConstraintsOk
    rw [if_pos (by simp [ht, hfk, hfresh])]

/-- Witness for C9: on the test fixture database, a null-text message is
rejected and a fresh valid message commits. -/
theorem message_commit_spec_witness :
    commitMessageInsert db0 { id := 3, text := none, user_id := 2 }
        = .error .IntegrityError ∧
      (commitMessageInsert db0 { id := 3, text := some "hi", user_id := 2 }
          = .ok { db0 with messages :=
              db0.messages ++ [{ id := 3, text := some "hi", user_id := 2 }] } ∧
        ({ id := 3, text := some "hi", user_id := 2 } : MessageRow) ∈
          (db0.messages ++ [{ id := 3, text := some "hi", user_id := 2 }]) ∧
        ({ id := 3, text := some "hi", user_id := 2 } : MessageRow).text
          = some "hi") :=
  ⟨(message_commit_spec db0 { id := 3, text := none, user_id := 2 }).1 rfl,
    (message_commit_spec db0 { id := 3, text := some "hi", user_id := 2 }).2
      "hi" rfl (by decide) (by decide)⟩

lemma findUser_update (l : List UserRow) (uid : Nat) (un em b2 : String)
    (u : UserRow) (hfind : l.find? (fun v => v.id == uid) = some u) :
    (l.map (fun v => if v.id == uid then
        { v with username := some un, email := some em, bio := b2 } else v)).find?
      (fun v => v.id == uid) =
      some { u with username := some un, email := some em, bio := b2 } := by
  rw [List.find?_map]
  have hpred : ((fun v : UserRow => v.id == uid) ∘ (fun v => if v.id == uid then
      { v with username := some un, email := some em, bio := b2 } else v)) =
      (fun v : UserRow => v.id == uid) := by
    funext v
    simp only [Function.comp]
    by_cases hv : v.id = uid
    · simp [hv]
    · simp [hv]
  rw [hpred, hfind]
  have huid : u.id = uid := by simpa using List.find?_some hfind
  simp [huid]

/-- C7: profile update is guarded by the current password and atomic on
failure: a wrong password answers "Wrong password" with the profile
unchanged, a username already taken by another user answers
"Username already exists." with the profile unchanged, and only when the
password matches and neither the username nor the email clashes are the
submitted username, email and bio applied. -/
theorem profile_update_guarded :
    (∀ (db : DB) (uid : Nat) (f : ProfileForm) (u : UserRow),
      findUser db uid = some u →
      check_password_hash u.password f.password = false →
      (handle db (some uid) (.profilePost f)).db = db ∧
        "Wrong password" ∈ (handle db (some uid) (.profilePost f)).body) ∧
    (∀ (db : DB) (uid : Nat) (f : ProfileForm) (u : UserRow),
      findUser db uid = some u →
      check_password_hash u.password f.password = true →
      usernameTakenByOther db uid f.username = true →
      (handle db (some uid) (.profilePost f)).db = db ∧
        "Username already exists." ∈ (handle db (some uid) (.profilePost f)).body) ∧
    (∀ (db : DB) (uid : Nat) (f : ProfileForm) (u : UserRow),
      findUser db uid = some u →
      check_password_hash u.password f.password = true →
      usernameTakenByOther db uid f.username = false →
      emailTakenByOther db uid f.email = false →
      findUser (handle db (some uid) (.profilePost f)).db uid =
        some { u with username := some f.username, email := some f.email,
                      bio := f.bio }) := by
  refine ⟨?_, ?_, ?_⟩
  · intro db uid f u hfind hpw
    show (handleProfilePost db uid f).db = db ∧
      "Wrong password" ∈ (handleProfilePost db uid f).body
    have h1 : handleProfilePost db uid f =
        { db := db, session := some uid, redirected := false,
          body := ["Wrong password"] } := by
      unfold handleProfilePost
      rw [hfind]
      simp [hpw]
    rw [h1]
    exact ⟨rfl, by simp⟩
  · intro db uid f u hfind hpw hun
    show (handleProfilePost db uid f).db = db ∧
      "Username already exists." ∈ (handleProfilePost db uid f).body
    have h1 : handleProfilePost db uid f =
        { db := db, session := some uid, redirected := false,
          body := ["Username already exists."] } := by
      unfold handleProfilePost
      rw [hfind]
      simp [hpw, hun]
    rw [h1]
    exact ⟨rfl, by simp⟩
  · intro db uid f u hfind hpw hun hem
    show findUser (handleProfilePost db uid f).db uid =
      some { u with username := some f.username, email := some f.email,
                    bio := f.bio }
    have h1 : handleProfilePost db uid f =
        { db := { db with users := db.users.map (fun v =>
            if v.id == uid then
              { v with username := some f.username, email := some f.email,
                       bio := f.bio }
            else v) }
          session := some uid
          redirected := true
          body := ["@" ++ f.username, f.bio] } := by
      unfold handleProfilePost
      rw [hfind]
      simp [hpw, hun, hem]
    rw [h1]
    exact findUser_update db.users uid f.username f.email f.bio u hfind

/-- Witness for C7: the three profile-update outcomes the unit tests
exercise, on the test fixture database. -/
theorem profile_update_guarded_witness :
    ((handle db0 (some 1) (.profilePost
        { username := "newName", email := "new@email.com",
          bio := "this is the new me.", password := "wrongpassword" })).db = db0 ∧
      "Wrong password" ∈ (handle db0 (some 1) (.profilePost
        { username := "newName", email := "new@email.com",
          bio := "this is the new me.", password := "wrongpassword" })).body) ∧
    ((handle db0 (some 1) (.profilePost
        { username := "u2", email := "u1@email.com",
          bio := "", password := "password" })).db = db0 ∧
      "Username already exists." ∈ (handle db0 (some 1) (.profilePost
        { username := "u2", email := "u1@email.com",
          bio := "", password := "password" })).body) ∧
    findUser (handle db0 (some 1) (.profilePost
        { username := "newName", email := "new@email.com",
          bio := "this is the new me.", password := "password" })).db 1 =
      some { user1 with username := some "newName", email := some "new@email.com",
                        bio := "this is the new me." } :=
  ⟨profile_update_guarded.1 db0 1
      { username := "newName", email := "new@email.com",
        bio := "this is the new me.", password := "wrongpassword" }
      user1 (by decide) (by decide),
    profile_update_guarded.2.1 db0 1
      { username := "u2", email := "u1@email.com",
        bio := "", password := "password" }
      user1 (by decide) (by decide) (by decide),
    profile_update_guarded.2.2 db0 1
      { username := "newName", email := "new@email.com",
        bio := "this is the new me.", password := "password" }
      user1 (by decide) (by decide) (by decide) (by decide)⟩

lemma usersInvariant_commit {db : DB} {u : UserRow} {db2 : DB}
    (hok : commitUserInsert db u = .ok db2) (hinv : dbInvariant db) :
    dbInvariant db2 := by
  unfold commitUserInsert at hok
  by_cases hc : userConstraintsOk db u = true
  · rw [if_pos hc] at hok
    cases hok
    obtain ⟨hp, hs⟩ := hinv
    simp only [userConstraintsOk, Bool.and_eq_true, Bool.not_eq_true',
      List.any_eq_false] at hc
    obtain ⟨⟨⟨⟨hu1, hu2⟩, hnoun⟩, hnoem⟩, hnoid⟩ := hc
    constructor
    · rw [List.pairwise_append]
      refine ⟨hp, by simp, ?_⟩
      intro a ha b hb
      have hb2 : b = u := by simpa using hb
      subst hb2
      have h3 := hnoun a ha
      have h4 := hnoem a ha
      have h5 := hnoid a ha
      simp only [beq_iff_eq] at h3 h4 h5
      exact ⟨by simpa using h5, by simpa using h3, by simpa using h4⟩
    · intro v hv
      rcases List.mem_append.mp hv with hv1 | hv2
      · exact hs v hv1
      · have : v = u := by simpa using hv2
        subst this
        exact ⟨hu1, hu2⟩
  · rw [if_neg hc] at hok
    exact Except.noConfusion hok

lemma usersInvariant_update {db : DB} (uid : Nat) (un em b2 : String)
    (hun : usernameTakenByOther db uid un = false)
    (hem : emailTakenByOther db uid em = false)
    (hinv : dbInvariant db) :
    usersInvariant (db.users.map (fun v => if v.id == uid then
      { v with username := some un, email := some em, bio := b2 } else v)) := by
  obtain ⟨hp, hs⟩ := hinv
  unfold usernameTakenByOther at hun
  unfold emailTakenByOther at hem
  rw [List.any_eq_false] at hun hem
  constructor
  · rw [List.pairwise_map]
    refine List.Pairwise.imp_of_mem ?_ hp
    intro a b ha hb hab
    by_cases haid : a.id = uid <;> by_cases hbid : b.id = uid
    · exact absurd (haid.trans hbid.symm) hab.1
    · have ca : (a.id == uid) = true := by simp [haid]
      have cb : ¬((b.id == uid) = true) := by simp [hbid]
      rw [if_pos ca, if_neg cb]
      have hbun : ¬(b.username = some un) := by
        have h := hun b hb
        simp [hbid] at h
        exact h
      have hbem : ¬(b.email = some em) := by
        have h := hem b hb
        simp [hbid] at h
        exact h
      exact ⟨hab.1, fun hcc => hbun hcc.symm, fun hcc => hbem hcc.symm⟩
    · have ca : ¬((a.id == uid) = true) := by simp [haid]
      have cb : (b.id == uid) = true := by simp [hbid]
      rw [if_neg ca, if_pos cb]
      have haun : ¬(a.username = some un) := by
        have h := hun a ha
        simp [haid] at h
        exact h
      have haem : ¬(a.email = some em) := by
        have h := hem a ha
        simp [haid] at h
        exact h
      exact ⟨hab.1, haun, haem⟩
    · have ca : ¬((a.id == uid) = true) := by simp [haid]
      have cb : ¬((b.id == uid) = true) := by simp [hbid]
      rw [if_neg ca, if_neg cb]
      exact hab
  · intro x hx
    obtain ⟨v, hv, rfl⟩ := List.mem_map.mp hx
    by_cases hvid : v.id = uid
    · simp [hvid]
    · simp [hvid]
      exact hs v hv

lemma handleSignup_inv (db : DB) (s : Option Nat) (f : SignupFormData)
    (hinv : dbInvariant db) : dbInvariant (handleSignup db s f).db := by
  unfold handleSignup
  split
  · exact hinv
  · split
    · exact hinv
    · split
      · next db2 heq => exact usersInvariant_commit heq hinv
      · exact hinv

lemma handleProfilePost_inv (db : DB) (uid : Nat) (f : ProfileForm)
    (hinv : dbInvariant db) : dbInvariant (handleProfilePost db uid f).db := by
  unfold handleProfilePost
  split
  · exact hinv
  · split
    · exact hinv
    · split
      · exact hinv
      · split
        · exact hinv
        · next hun hem =>
            exact usersInvariant_update uid f.username f.email f.bio
              (Bool.eq_false_iff.mpr hun) (Bool.eq_false_iff.mpr hem) hinv

lemma handleDeleteUser_inv (db : DB) (uid : Nat)
    (hinv : dbInvariant db) : dbInvariant (handleDeleteUser db uid).db := by
  unfold handleDeleteUser
  exact usersInvariant_filter _ hinv

lemma renderUserPage_db (db : DB) (s : Option Nat) (x : Nat) :
    (renderUserPage db s x).db = db := by
  unfold renderUserPage
  split <;> rfl

lemma handleFollow_users (db : DB) (uid fid : Nat) :
    (handleFollow db uid fid).db.users = db.users := by
  unfold handleFollow
  split <;> rfl

lemma handleStopFollowing_users (db : DB) (uid fid : Nat) :
    (handleStopFollowing db uid fid).db.users = db.users := rfl

lemma handleLogout_db (db : DB) (uid : Nat) :
    (handleLogout db uid).db = db := by
  unfold handleLogout
  split <;> rfl

lemma handleLike_users (db : DB) (uid mid : Nat) :
    (handleLike db uid mid).db.users = db.users := by
  unfold handleLike
  split
  · rfl
  · split <;> rfl

lemma handleUnlike_users (db : DB) (uid mid : Nat) :
    (handleUnlike db uid mid).db.users = db.users := by
  unfold handleUnlike
  split <;> rfl

lemma handleDeleteMessage_users (db : DB) (uid mid : Nat) :
    (handleDeleteMessage db uid mid).db.users = db.users := by
  unfold handleDeleteMessage
  split
  · rfl
  · split <;> rfl

/-- C3: no two committed users share a username or an email — the invariant
is preserved by every request; committing an inserted user whose username is
null or already exists raises `IntegrityError`; and a signup reusing an
existing username or email re-renders with "Username already exists." or
"Email already exists." while creating no user. -/
theorem username_email_uniqueness (db : DB) (s : Option Nat) (r : Route)
    (u : UserRow) (f : SignupFormData) :
    (dbInvariant db → dbInvariant (handle db s r).db) ∧
    ((u.username = none ∨
        ∃ un, u.username = some un ∧ usernameTaken db un = true) →
      commitUserInsert db u = .error .IntegrityError) ∧
    (usernameTaken db f.username = true →
      (handle db s (.signupPost f)).db = db ∧
        "Username already exists." ∈ (handle db s (.signupPost f)).body) ∧
    (usernameTaken db f.username = false → emailTaken db f.email = true →
      (handle db s (.signupPost f)).db = db ∧
        "Email already exists." ∈ (handle db s (.signupPost f)).body) := by
  refine ⟨?_, ?_, ?_, ?_⟩
  · intro hinv
    cases r with
    | signupPost g =>
        cases s with
        | none => exact handleSignup_inv db none g hinv
        | some uid => exact handleSignup_inv db (some uid) g hinv
    | listUsers =>
        cases s with
        | none => exact hinv
        | some uid => exact hinv
    | showUser i =>
        cases s with
        | none => exact hinv
        | some uid =>
            show dbInvariant (renderUserPage db (some uid) i).db
            rw [renderUserPage_db]
            exact hinv
    | showFollowing i =>
        cases s with
        | none => exact hinv
        | some uid =>
            show dbInvariant (renderUserPage db (some uid) i).db
            rw [renderUserPage_db]
            exact hinv
    | showFollowers i =>
        cases s with
        | none => exact hinv
        | some uid =>
            show dbInvariant (renderUserPage db (some uid) i).db
            rw [renderUserPage_db]
            exact hinv
    | showLikes i =>
        cases s with
        | none => exact hinv
        | some uid =>
            show dbInvariant (renderUserPage db (some uid) i).db
            rw [renderUserPage_db]
            exact hinv
    | profileGet =>
        cases s with
        | none => exact hinv
        | some uid => exact hinv
    | profilePost g =>
        cases s with
        | none => exact hinv
        | some uid => exact handleProfilePost_inv db uid g hinv
    | followUser i =>
        cases s with
        | none => exact hinv
        | some uid =>
            exact dbInvariant_of_users_eq (handleFollow_users db uid i) hinv
    | stopFollowing i =>
        cases s with
        | none => exact hinv
        | some uid =>
            exact dbInvariant_of_users_eq (handleStopFollowing_users db uid i) hinv
    | deleteUser =>
        cases s with
        | none => exact hinv
        | some uid => exact handleDeleteUser_inv db uid hinv
    | logout =>
        cases s with
        | none => exact hinv
        | some uid =>
            show dbInvariant (handleLogout db uid).db
            rw [handleLogout_db]
            exact hinv
    | likeMessage i =>
        cases s with
        | none => exact hinv
        | some uid =>
            exact dbInvariant_of_users_eq (handleLike_users db uid i) hinv
    | unlikeMessage i =>
        cases s with
        | none => exact hinv
        | some uid =>
            exact dbInvariant_of_users_eq (handleUnlike_users db uid i) hinv
    | deleteMessage i =>
        cases s with
        | none => exact hinv
        | some uid =>
            exact dbInvariant_of_users_eq (handleDeleteMessage_users db uid i) hinv
  · intro hbad
    have hfalse : userConstraintsOk db u = false := by
      rcases hbad with hnull | ⟨un, hun, htaken⟩
      · simp [userConstraintsOk, hnull]
      · unfold userConstraintsOk
        rw [hun]
        unfold usernameTaken at htaken
        simp [htaken]
    unfold commitUserInsert
    simp [hfalse]
  · intro htaken
    show (handleSignup db s f).db = db ∧
      "Username already exists." ∈ (handleSignup db s f).body
    have h1 : handleSignup db s f =
        { db := db, session := s, redirected := false,
          body := ["Username already exists."] } := by
      unfold handleSignup
      rw [if_pos htaken]
    rw [h1]
    exact ⟨rfl, by simp⟩
  · intro hfree htaken
    show (handleSignup db s f).db = db ∧
      "Email already exists." ∈ (handleSignup db s f).body
    have h1 : handleSignup db s f =
        { db := db, session := s, redirected := false,
          body := ["Email already exists."] } := by
      unfold handleSignup
      rw [if_neg (by simp [hfree]), if_pos htaken]
    rw [h1]
    exact ⟨rfl, by simp⟩

/-- Witness for C3: on the test fixture database — a follow request
preserving the invariant, a duplicate-username insert raising
`IntegrityError`, and the two rejected signup reuses from the unit tests. -/
theorem username_email_uniqueness_witness :
    (dbInvariant db0 → dbInvariant (handle db0 (some 1) (.followUser 2)).db) ∧
    commitUserInsert db0
        { id := 3, username := some "u1", email := some "x@y.z",
          password := hashpw "p", bio := "" } = .error .IntegrityError ∧
    ((handle db0 none (.signupPost
        { username := "u1", email := "z@z.com", password := "anypassword" })).db
        = db0 ∧
      "Username already exists." ∈ (handle db0 none (.signupPost
        { username := "u1", email := "z@z.com", password := "anypassword" })).body) ∧
    ((handle db0 none (.signupPost
        { username := "u12", email := "u1@email.com", password := "anypassword" })).db
        = db0 ∧
      "Email already exists." ∈ (handle db0 none (.signupPost
        { username := "u12", email := "u1@email.com", password := "anypassword" })).body) :=
  ⟨(username_email_uniqueness db0 (some 1) (.followUser 2)
      { id := 3, username := some "u1", email := some "x@y.z",
        password := hashpw "p", bio := "" }
      { username := "u1", email := "z@z.com", password := "anypassword" }).1,
    (username_email_uniqueness db0 (some 1) (.followUser 2)
      { id := 3, username := some "u1", email := some "x@y.z",
        password := hashpw "p", bio := "" }
      { username := "u1", email := "z@z.com", password := "anypassword" }).2.1
      (Or.inr ⟨"u1", rfl, by decide⟩),
    (username_email_uniqueness db0 none (.followUser 2)
      { id := 3, username := some "u1", email := some "x@y.z",
        password := hashpw "p", bio := "" }
      { username := "u1", email := "z@z.com", password := "anypassword" }).2.2.1
      (by decide),
    (username_email_uniqueness db0 none (.followUser 2)
      { id := 3, username := some "u1", email := some "x@y.z",
        password := hashpw "p", bio := "" }
      { username := "u12", email := "u1@email.com", password := "anypassword" }).2.2.2
      (by decide) (by decide)⟩

end Warbler
